import Mathlib

/-!
# Verification of the Cheesy-Surfing streaming browser server

Shallow embedding of `server.js` (the WebSocket-streaming variant, the second
document in the file; line numbers below refer to that file).  The external
collaborators (puppeteer, sharp, the `ws` transport) are opaque capabilities:
their outcomes are passed in as explicit parameters (`Except`-valued
arguments), while every piece of control flow, state mutation and data
construction performed by `server.js` itself is translated directly.

Machine conventions:
* an encoded frame is its byte string, modelled as `List Nat`;
* browser/page handles are `Option Nat` ids; `some` means the handle exists
  and (for pages) is open, `none` models both `null` and a closed page;
* a JSON object literal is an association list of string fields.
-/

set_option autoImplicit false

namespace CheesySurfing

/-- Encoded frame payload: the compressed byte string produced by the
screenshot + sharp pipeline (`server.js` lines 362-372). -/
abbrev Frame := List Nat

/-- Change-detection step of `getOptimizedScreenshot` (`server.js` lines
374-380): given the cached `previousScreenshot` and the freshly `compressed`
frame, return the new cache value and the optionally emitted frame.

Source:
```
if (previousScreenshot && Math.abs(compressed.length - previousScreenshot.length) < 1000)
  return null;                    // Very similar frame, skip
previousScreenshot = compressed;
return compressed.toString('base64');
```
The emitted value is modelled as the compressed frame itself (the base64
transport encoding is applied later, in `frameMessage`). -/
def changeDetect (previousScreenshot : Option Frame) (compressed : Frame) :
    Option Frame × Option Frame :=
  match previousScreenshot with
  | some prev =>
    if Int.natAbs ((compressed.length : Int) - (prev.length : Int)) < 1000 then
      (some prev, none)
    else
      (some compressed, some compressed)
  | none => (some compressed, some compressed)

/-- Iterated change detection: process a list of captured frames in order,
threading the `previousScreenshot` cache, and collect the emitted frames. -/
def detectFold (prev : Option Frame) : List Frame → Option Frame × List Frame
  | [] => (prev, [])
  | c :: cs =>
    match (changeDetect prev c).2 with
    | none => detectFold (changeDetect prev c).1 cs
    | some e =>
      ((detectFold (changeDetect prev c).1 cs).1,
       e :: (detectFold (changeDetect prev c).1 cs).2)

/-- The module-level mutable globals of `server.js` (lines 273-276) that the
claims are about: `browser`, `page`, `previousScreenshot`.  A `some` page is
open; a closed or null page is `none`. -/
structure Globals where
  browser : Option Nat
  page : Option Nat
  previousScreenshot : Option Frame
deriving DecidableEq

/-- One call to `initBrowser` (`server.js` lines 279-346), with the backend
launch outcome passed in (`launch = .ok (b, p)`: puppeteer launched browser
`b` and opened page `p`; `.error e`: some step of initialization threw `e`).
If the current browser and page are valid the call returns them untouched;
otherwise it launches, and on failure clears `browser` and `page` (lines
342-343) and rethrows.  `previousScreenshot` is never touched here. -/
def initBrowserCall (st : Globals) (launch : Except String (Nat × Nat)) :
    Globals × Except String (Nat × Nat) :=
  match st.browser, st.page with
  | some b, some p => (st, .ok (b, p))
  | _, _ =>
    match launch with
    | .ok bp => ({ st with browser := some bp.1, page := some bp.2 }, .ok bp)
    | .error e => ({ st with browser := none, page := none }, .error e)

/-- The catch block of `getOptimizedScreenshot` (`server.js` lines 382-398):
reset `browser`, `page` and `previousScreenshot`, attempt one re-init
(its own failure is swallowed), and return `null`. -/
def captureCatch (reinit : Except String (Nat × Nat)) : Globals × Option Frame :=
  ((initBrowserCall { browser := none, page := none, previousScreenshot := none } reinit).1,
   none)

/-- `getOptimizedScreenshot` (`server.js` lines 349-399).  `launch` is the
outcome of the leading `initBrowser()` call if it has to launch; `capture` is
the outcome of the screenshot + sharp encode (`.ok compressed` or a thrown
error); `reinit` is the outcome of the recovery `initBrowser()` inside the
catch block.  After a successful `initBrowserCall` the page handle is live by
construction, so the source's re-check of `page.isClosed()` (lines 354-359)
is the identity here. -/
def getOptimizedScreenshot (st : Globals) (launch : Except String (Nat × Nat))
    (capture : Except String Frame) (reinit : Except String (Nat × Nat)) :
    Globals × Option Frame :=
  match (initBrowserCall st launch).2, capture with
  | .error _, _ => captureCatch reinit
  | .ok _, .error _ => captureCatch reinit
  | .ok _, .ok compressed =>
    ({ (initBrowserCall st launch).1 with
        previousScreenshot :=
          (changeDetect (initBrowserCall st launch).1.previousScreenshot compressed).1 },
     (changeDetect (initBrowserCall st launch).1.previousScreenshot compressed).2)

/-- An HTTP response of the control API: `.ok url` is
`res.json({success:true, url})`, `.ack` is `res.json({success:true})`,
`.err code msg` is `res.status(code).json({success:false, error:msg})`. -/
inductive NavResponse where
  | ok (url : String)
  | ack
  | err (code : Nat) (msg : String)
deriving DecidableEq

/-- The scheme test `url.match(/^https?:\/\//)` (`server.js` line 408): the
address starts with `http://` or with `https://` (stated on the character
lists underlying the strings). -/
def hasScheme (url : String) : Bool :=
  "http://".data.isPrefixOf url.data || "https://".data.isPrefixOf url.data

/-- The `finalUrl` computation of the navigate handler (`server.js` lines
407-410): prepend `https://` when the address has no scheme. -/
def normalizeUrl (url : String) : String :=
  if hasScheme url then url else "https://" ++ url

/-- The `POST /api/navigate` handler (`server.js` lines 402-418).  `body` is
the `url` field of the request body (`none` when absent).  `goto` gives the
outcome of `page.goto(finalUrl, ...)`: `.ok u` means navigation succeeded and
the page's address afterwards is `u` (the handler, like the source, ignores
this value); `.error e` means goto threw `e`.  When the body has no `url`
field, `url.match(...)` throws a TypeError, which the catch turns into a 500
response; note that this throw happens after `initBrowser()` has already run. -/
def navigateHandler (st : Globals) (body : Option String)
    (launch : Except String (Nat × Nat))
    (goto : String → Except String String) : Globals × NavResponse :=
  match (initBrowserCall st launch).2, body with
  | .error e, _ => ((initBrowserCall st launch).1, .err 500 e)
  | .ok _, none => ((initBrowserCall st launch).1, .err 500 "TypeError: url is undefined")
  | .ok _, some url =>
    match goto (normalizeUrl url) with
    | .error e => ((initBrowserCall st launch).1, .err 500 e)
    | .ok _ =>
      ({ (initBrowserCall st launch).1 with previousScreenshot := none },
       .ok (normalizeUrl url))

/-- The `POST /api/click` handler (`server.js` lines 420-430); `op` is the
outcome of `page.mouse.click(x, y)`. -/
def clickHandler (st : Globals) (x y : Int) (launch : Except String (Nat × Nat))
    (op : Except String Unit) : Globals × NavResponse :=
  match (initBrowserCall st launch).2, op with
  | .error e, _ => ((initBrowserCall st launch).1, .err 500 e)
  | .ok _, .error e => ((initBrowserCall st launch).1, .err 500 e)
  | .ok _, .ok _ =>
    ({ (initBrowserCall st launch).1 with previousScreenshot := none }, .ack)

/-- The `POST /api/back` handler (`server.js` lines 467-476); `op` is the
outcome of `page.goBack(...)`. -/
def backHandler (st : Globals) (launch : Except String (Nat × Nat))
    (op : Except String Unit) : Globals × NavResponse :=
  match (initBrowserCall st launch).2, op with
  | .error e, _ => ((initBrowserCall st launch).1, .err 500 e)
  | .ok _, .error e => ((initBrowserCall st launch).1, .err 500 e)
  | .ok _, .ok _ =>
    ({ (initBrowserCall st launch).1 with previousScreenshot := none }, .ack)

/-- The `POST /api/forward` handler (`server.js` lines 478-487); `op` is the
outcome of `page.goForward(...)`. -/
def forwardHandler (st : Globals) (launch : Except String (Nat × Nat))
    (op : Except String Unit) : Globals × NavResponse :=
  match (initBrowserCall st launch).2, op with
  | .error e, _ => ((initBrowserCall st launch).1, .err 500 e)
  | .ok _, .error e => ((initBrowserCall st launch).1, .err 500 e)
  | .ok _, .ok _ =>
    ({ (initBrowserCall st launch).1 with previousScreenshot := none }, .ack)

/-- The `POST /api/refresh` handler (`server.js` lines 489-498); `op` is the
outcome of `page.reload(...)`. -/
def refreshHandler (st : Globals) (launch : Except String (Nat × Nat))
    (op : Except String Unit) : Globals × NavResponse :=
  match (initBrowserCall st launch).2, op with
  | .error e, _ => ((initBrowserCall st launch).1, .err 500 e)
  | .ok _, .error e => ((initBrowserCall st launch).1, .err 500 e)
  | .ok _, .ok _ =>
    ({ (initBrowserCall st launch).1 with previousScreenshot := none }, .ack)

/-- Stand-in for the base64 transport encoding of the byte payload
(`compressed.toString('base64')`); the exact alphabet is irrelevant to the
claims, only that the payload travels in the `data` field. -/
def b64 (data : Frame) : String :=
  String.intercalate "," (data.map toString)

/-- The frame message sent over the WebSocket (`server.js` lines 531-534):
`JSON.stringify({ type: 'frame', data: screenshot })`, modelled as the
association list of its fields. -/
def frameMessage (data : Frame) : List (String × String) :=
  [("type", "frame"), ("data", b64 data)]

/-- Result of one tick of a subscriber's `streamInterval` callback. -/
structure TickResult where
  globals : Globals
  sent : Option (List (String × String))
deriving DecidableEq

/-- One tick of the per-connection `streamInterval` callback (`server.js`
lines 525-539): if `streaming` is still set, run `getOptimizedScreenshot`;
if it produced a frame and `ws.readyState === 1`, pass the frame message to
`ws.send`.  `sent` is the message handed to the transport this tick, if any. -/
def streamTick (streaming : Bool) (readyState : Nat) (st : Globals)
    (launch : Except String (Nat × Nat)) (capture : Except String Frame)
    (reinit : Except String (Nat × Nat)) : TickResult :=
  if streaming then
    match (getOptimizedScreenshot st launch capture reinit).2 with
    | some s =>
      if readyState = 1 then
        ⟨(getOptimizedScreenshot st launch capture reinit).1, some (frameMessage s)⟩
      else
        ⟨(getOptimizedScreenshot st launch capture reinit).1, none⟩
    | none => ⟨(getOptimizedScreenshot st launch capture reinit).1, none⟩
  else ⟨st, none⟩

/-- A family of frames whose encoded sizes grow by exactly the tolerance
(1000 bytes) per step, so every consecutive pair is "not similar". -/
def growingFrame (k : Nat) : Frame := List.replicate (1000 * k) 0

/-- A run of `n` ticks of one subscriber whose socket is open
(`readyState = 1`) but whose outbound channel never drains: the accumulated
list is every message passed to `ws.send` for this subscriber, i.e. the
transport's outbound queue, which the `ws` library buffers.  Each tick
captures the next `growingFrame`, so every capture differs from the cache by
exactly the tolerance. -/
def saturatedRun : Nat → Globals × List (List (String × String))
  | 0 => (⟨some 1, some 1, none⟩, [])
  | k + 1 =>
    match streamTick true 1 (saturatedRun k).1 (.ok (1, 1))
        (.ok (growingFrame (k + 1))) (.ok (1, 1)) with
    | ⟨st1, some m⟩ => (st1, (saturatedRun k).2 ++ [m])
    | ⟨st1, none⟩ => (st1, (saturatedRun k).2)

/-!
## Interleaving model of concurrent `initBrowser` calls

Node.js executes each caller's code run-to-completion between `await` points.
`initBrowser` (`server.js` lines 279-346) has exactly these atomic segments:

* from entry (or from waking out of the 100 ms sleep of
  `while (isInitializing) await ...`) through the guard re-check, the
  validity check `browser && page && !page.isClosed()` (all synchronous;
  `page.isClosed()` returns a plain boolean) and, when invalid, the
  assignment `isInitializing = true` — no `await` occurs in between;
* the launch phase (`browser.close()`, `puppeteer.launch`, `newPage`,
  `setViewport`, `goto`), during which `isInitializing` stays `true`, so its
  intermediate states are unobservable by other callers, and which ends by
  setting `isInitializing = false` and either returning the fresh session or
  clearing `browser`/`page` and rethrowing.

A caller is therefore a three-state machine, and the process is an arbitrary
interleaving of these atomic segments. -/

/-- Program counter of one `initBrowser` caller. -/
inductive PC where
  /-- About to evaluate the `while (isInitializing)` guard (at entry, or
  woken from the 100 ms sleep). -/
  | ready : PC
  /-- Holds `isInitializing`; the backend launch sequence is in flight. -/
  | launching : PC
  /-- Returned: `some s` is the session handle it got; `none` means
  `initBrowser` threw. -/
  | done : Option Nat → PC
deriving DecidableEq

/-- Process-wide state of `n` concurrent `initBrowser` callers.  `session`
is `some s` exactly when `browser` and `page` are set and the page is open;
session ids number the completed launches.  `launches` counts completed
`puppeteer.launch` calls. -/
structure InitState (n : Nat) where
  isInitializing : Bool
  session : Option Nat
  launches : Nat
  pcs : Fin n → PC

/-- The atomic segments of `initBrowser`, with launches succeeding
(the environment in which the claim's conclusion is expressible). -/
inductive StepOk (n : Nat) : InitState n → InitState n → Prop where
  /-- `while (isInitializing)`: guard true, sleep 100 ms and re-check later;
  no state changes. -/
  | checkBusy (st : InitState n) (i : Fin n) :
      st.pcs i = .ready → st.isInitializing = true →
      StepOk n st st
  /-- Guard false and `browser && page && !page.isClosed()`: return the live
  session without touching anything. -/
  | checkReady (st : InitState n) (i : Fin n) (s : Nat) :
      st.pcs i = .ready → st.isInitializing = false → st.session = some s →
      StepOk n st { st with pcs := Function.update st.pcs i (.done (some s)) }
  /-- Guard false, no valid session: set `isInitializing = true` and start
  the launch sequence (all in one synchronous segment). -/
  | beginInit (st : InitState n) (i : Fin n) :
      st.pcs i = .ready → st.isInitializing = false → st.session = none →
      StepOk n st { st with isInitializing := true,
                            pcs := Function.update st.pcs i .launching }
  /-- The launch sequence completes: a fresh session exists, the flag is
  cleared, the caller returns the new handles. -/
  | launchOk (st : InitState n) (i : Fin n) :
      st.pcs i = .launching →
      StepOk n st { isInitializing := false, session := some st.launches,
                    launches := st.launches + 1,
                    pcs := Function.update st.pcs i (.done (some st.launches)) }

/-- All atomic segments, including a failing launch sequence (the catch of
`initBrowser`: clear `browser`/`page`, clear the flag, rethrow). -/
inductive Step (n : Nat) : InitState n → InitState n → Prop where
  | ok {s t : InitState n} : StepOk n s t → Step n s t
  | launchFail (st : InitState n) (i : Fin n) :
      st.pcs i = .launching →
      Step n st { isInitializing := false, session := none,
                  launches := st.launches + 1,
                  pcs := Function.update st.pcs i (.done none) }

/-- `n` callers arrive while no live session exists and nothing is
initializing. -/
def initialState (n : Nat) : InitState n :=
  { isInitializing := false, session := none, launches := 0, pcs := fun _ => .ready }

/-- States reachable by interleavings in which every launch succeeds. -/
inductive ReachableOk (n : Nat) : InitState n → Prop where
  | refl : ReachableOk n (initialState n)
  | step {s t : InitState n} : ReachableOk n s → StepOk n s t → ReachableOk n t

/-- States reachable by arbitrary interleavings (launches may fail). -/
inductive Reachable (n : Nat) : InitState n → Prop where
  | refl : Reachable n (initialState n)
  | step {s t : InitState n} : Reachable n s → Step n s t → Reachable n t

/-- Mutual-exclusion invariant: a launching caller implies the flag is held,
and at most one caller is in the launch phase. -/
abbrev MutexInv {n : Nat} (st : InitState n) : Prop :=
  (∀ i, st.pcs i = .launching → st.isInitializing = true) ∧
  (∀ i j, st.pcs i = .launching → st.pcs j = .launching → i = j)

/-- Single-flight invariant along successful runs: before the first launch
completes nothing has launched and nobody has returned; afterwards the one
session `0` exists, exactly one launch has happened, and every completed
caller got session `0`. -/
abbrev OkInv {n : Nat} (st : InitState n) : Prop :=
  MutexInv st ∧
  (st.session = none → st.launches = 0) ∧
  (∀ s, st.session = some s → s = 0 ∧ st.launches = 1 ∧ st.isInitializing = false) ∧
  (∀ i r, st.pcs i = .done r → r = some 0 ∧ st.session = some 0)

lemma mutexInv_stepOk {n : Nat} {s t : InitState n} (h : MutexInv s) (hs : StepOk n s t) :
    MutexInv t := by
  obtain ⟨h1, h2⟩ := h
  cases hs with
  | checkBusy i hpc hflag => exact ⟨h1, h2⟩
  | checkReady i w hpc hflag hsess =>
    refine ⟨fun j hj => ?_, fun j k hj hk => ?_⟩
    · simp only [Function.update_apply] at hj
      split at hj
      · cases hj
      · exact h1 j hj
    · simp only [Function.update_apply] at hj hk
      split at hj
      · cases hj
      · split at hk
        · cases hk
        · exact h2 j k hj hk
  | beginInit i hpc hflag hsess =>
    refine ⟨fun j hj => rfl, fun j k hj hk => ?_⟩
    simp only [Function.update_apply] at hj hk
    split at hj
    · split at hk
      · omega
      · exact absurd (h1 k hk) (by simp [hflag])
    · exact absurd (h1 j hj) (by simp [hflag])
  | launchOk i hpc =>
    refine ⟨fun j hj => ?_, fun j k hj hk => ?_⟩
    · simp only [Function.update_apply] at hj
      split at hj
      · cases hj
      · exact absurd (h2 j i hj hpc) (by assumption)
    · simp only [Function.update_apply] at hj hk
      split at hj
      · cases hj
      · exact absurd (h2 j i hj hpc) (by assumption)

lemma mutexInv_step {n : Nat} {s t : InitState n} (h : MutexInv s) (hs : Step n s t) :
    MutexInv t := by
  obtain ⟨h1, h2⟩ := h
  cases hs with
  | ok hok => exact mutexInv_stepOk ⟨h1, h2⟩ hok
  | launchFail i hpc =>
    refine ⟨fun j hj => ?_, fun j k hj hk => ?_⟩
    · simp only [Function.update_apply] at hj
      split at hj
      · cases hj
      · exact absurd (h2 j i hj hpc) (by assumption)
    · simp only [Function.update_apply] at hj hk
      split at hj
      · cases hj
      · exact absurd (h2 j i hj hpc) (by assumption)

lemma mutexInv_initial (n : Nat) : MutexInv (initialState n) := by
  refine ⟨fun i hi => ?_, fun i j hi _ => ?_⟩ <;> simp [initialState] at hi

lemma mutexInv_reachable {n : Nat} {st : InitState n} (h : Reachable n st) :
    MutexInv st := by
  induction h with
  | refl => exact mutexInv_initial n
  | step _ hs ih => exact mutexInv_step ih hs

lemma okInv_stepOk {n : Nat} {s t : InitState n} (h : OkInv s) (hs : StepOk n s t) :
    OkInv t := by
  obtain ⟨hm, hnone, hsome, hdone⟩ := h
  refine ⟨mutexInv_stepOk hm hs, ?_⟩
  cases hs with
  | checkBusy i hpc hflag => exact ⟨hnone, hsome, hdone⟩
  | checkReady i w hpc hflag hsess =>
    refine ⟨hnone, hsome, fun j r hj => ?_⟩
    simp only [Function.update_apply] at hj
    split at hj
    · cases hj
      have hw := hsome w hsess
      exact ⟨by rw [hw.1], by rw [← hw.1]; exact hsess⟩
    · exact hdone j r hj
  | beginInit i hpc hflag hsess =>
    refine ⟨fun _ => hnone hsess, fun w hw => absurd hw (by simp [hsess]), fun j r hj => ?_⟩
    simp only [Function.update_apply] at hj
    split at hj
    · cases hj
    · exact absurd (hdone j r hj).2 (by simp [hsess])
  | launchOk i hpc =>
    have hflag : s.isInitializing = true := hm.1 i hpc
    have hsess : s.session = none := by
      cases hcs : s.session with
      | none => rfl
      | some w => exact absurd hflag (by simp [(hsome w hcs).2.2])
    have hlz : s.launches = 0 := hnone hsess
    refine ⟨?_, fun w hw => ?_, fun j r hj => ?_⟩
    · intro habs
      simp at habs
    · simp only at hw
      rw [hlz] at hw
      cases hw
      exact ⟨rfl, by simp [hlz], rfl⟩
    · simp only [Function.update_apply] at hj
      split at hj
      · cases hj
        exact ⟨by rw [hlz], by simp [hlz]⟩
      · exact absurd (hdone j r hj).2 (by simp [hsess])

lemma okInv_initial (n : Nat) : OkInv (initialState n) := by
  refine ⟨mutexInv_initial n, fun _ => rfl, fun w hw => ?_, fun i r hi => ?_⟩
  · simp [initialState] at hw
  · simp [initialState] at hi

lemma okInv_reachableOk {n : Nat} {st : InitState n} (h : ReachableOk n st) :
    OkInv st := by
  induction h with
  | refl => exact okInv_initial n
  | step _ hs ih => exact okInv_stepOk ih hs

lemma reachableOk_reachable {n : Nat} {st : InitState n} (h : ReachableOk n st) :
    Reachable n st := by
  induction h with
  | refl => exact Reachable.refl
  | step _ hs ih => exact Reachable.step ih (Step.ok hs)

/-!
## Helper lemmas
-/

lemma initBrowserCall_prev (st : Globals) (l : Except String (Nat × Nat)) :
    (initBrowserCall st l).1.previousScreenshot = st.previousScreenshot := by
  cases hb : st.browser <;> cases hp : st.page <;> cases l <;>
    simp [initBrowserCall, hb, hp]

lemma changeDetect_none {prev : Option Frame} {c : Frame}
    (h : (changeDetect prev c).2 = none) : (changeDetect prev c).1 = prev := by
  cases prev with
  | none => simp [changeDetect] at h
  | some p =>
    by_cases hc : Int.natAbs ((c.length : Int) - (p.length : Int)) < 1000
    · simp [changeDetect, hc]
    · simp [changeDetect, hc] at h

lemma changeDetect_some {prev : Option Frame} {c e : Frame}
    (h : (changeDetect prev c).2 = some e) :
    (changeDetect prev c).1 = some e ∧ e = c := by
  cases prev with
  | none =>
    simp [changeDetect] at h ⊢
    exact ⟨h, h.symm⟩
  | some p =>
    by_cases hc : Int.natAbs ((c.length : Int) - (p.length : Int)) < 1000
    · simp [changeDetect, hc] at h
    · simp [changeDetect, hc] at h ⊢
      exact ⟨h, h.symm⟩

/-!
## Claim theorems
-/

/-- C2: consecutive captures whose encoded lengths differ by less than the
1000-byte tolerance are suppressed (cache kept, nothing emitted); encoding
the same frame twice in a row is always similar and nothing is broadcast
(a suppressed tick passes nothing to `ws.send`); captures whose encoded
lengths differ by at least the tolerance are emitted and stored as the new
previous frame. -/
theorem claim2_similarity_suppression :
    (∀ p c : Frame, Int.natAbs ((c.length : Int) - (p.length : Int)) < 1000 →
        changeDetect (some p) c = (some p, none)) ∧
    (∀ c : Frame, changeDetect (some c) c = (some c, none)) ∧
    (∀ p c : Frame, 1000 ≤ Int.natAbs ((c.length : Int) - (p.length : Int)) →
        changeDetect (some p) c = (some c, some c)) ∧
    (∀ (strm : Bool) (rs : Nat) (st : Globals) (launch : Except String (Nat × Nat))
        (capture : Except String Frame) (reinit : Except String (Nat × Nat)),
        (getOptimizedScreenshot st launch capture reinit).2 = none →
        (streamTick strm rs st launch capture reinit).sent = none) := by
  refine ⟨fun p c h => ?_, fun c => ?_, fun p c h => ?_,
          fun strm rs st launch capture reinit h => ?_⟩
  · simp [changeDetect, h]
  · simp [changeDetect]
  · have hlt : ¬ Int.natAbs ((c.length : Int) - (p.length : Int)) < 1000 := not_lt.mpr h
    simp [changeDetect, hlt]
  · cases strm <;> simp [streamTick, h]

/-- Witness for C2 at concrete frames: `[1]` against cached `[0]` (length
difference 0) is suppressed; `[5]` re-encoded is suppressed; a 1000-byte
frame against an empty cache entry is emitted; a suppressed tick sends
nothing. -/
theorem claim2_similarity_suppression_witness :
    changeDetect (some [0]) [1] = (some [0], none) ∧
    changeDetect (some [5]) [5] = (some [5], none) ∧
    changeDetect (some []) (growingFrame 1) = (some (growingFrame 1), some (growingFrame 1)) ∧
    (streamTick true 1 ⟨some 1, some 1, some [0]⟩ (.ok (1, 1)) (.ok [1]) (.ok (1, 1))).sent
      = none := by
  refine ⟨claim2_similarity_suppression.1 [0] [1] (by decide),
          claim2_similarity_suppression.2.1 [5],
          claim2_similarity_suppression.2.2.1 [] (growingFrame 1) (by norm_num [growingFrame]),
          claim2_similarity_suppression.2.2.2 true 1 ⟨some 1, some 1, some [0]⟩
            (.ok (1, 1)) (.ok [1]) (.ok (1, 1)) (by decide)⟩

/-- C9: the comparison baseline is the most recently emitted frame, never a
suppressed one.  Over any capture sequence, the final cache equals the last
emitted frame (or the starting cache if nothing was emitted): folding the
emission list recovers the cache.  A suppressed step leaves the cache
untouched. -/
theorem claim9_baseline_last_emitted :
    (∀ (prev : Option Frame) (cs : List Frame),
        (detectFold prev cs).1 = (detectFold prev cs).2.foldl (fun _ e => some e) prev) ∧
    (∀ p c : Frame, (changeDetect (some p) c).2 = none →
        (changeDetect (some p) c).1 = some p) := by
  constructor
  · intro prev cs
    induction cs generalizing prev with
    | nil => rfl
    | cons c cs ih =>
      unfold detectFold
      cases hc : (changeDetect prev c).2 with
      | none =>
        have hp := changeDetect_none hc
        simp only [hc]
        rw [hp]
        exact ih prev
      | some e =>
        have hp := changeDetect_some hc
        simp only [hc, List.foldl_cons]
        rw [hp.1]
        exact ih (some e)
  · exact fun p c h => changeDetect_none h

/-- Witness for C9: a suppressed step at concrete frames leaves the cached
baseline untouched. -/
theorem claim9_baseline_last_emitted_witness :
    (changeDetect (some [0]) [1]).1 = some [0] :=
  claim9_baseline_last_emitted.2 [0] [1] (by decide)

/-- C4: every successful navigation-class command (navigate, click, back,
forward, refresh) clears the cached previous frame, and with a cleared cache
the next capture is always emitted, never suppressed. -/
theorem claim4_navigation_invalidates_cache :
    (∀ (st : Globals) (body : Option String) (launch : Except String (Nat × Nat))
        (goto : String → Except String String) (r : String),
        (navigateHandler st body launch goto).2 = .ok r →
        (navigateHandler st body launch goto).1.previousScreenshot = none) ∧
    (∀ (st : Globals) (x y : Int) (launch : Except String (Nat × Nat))
        (op : Except String Unit),
        (clickHandler st x y launch op).2 = .ack →
        (clickHandler st x y launch op).1.previousScreenshot = none) ∧
    (∀ (st : Globals) (launch : Except String (Nat × Nat)) (op : Except String Unit),
        (backHandler st launch op).2 = .ack →
        (backHandler st launch op).1.previousScreenshot = none) ∧
    (∀ (st : Globals) (launch : Except String (Nat × Nat)) (op : Except String Unit),
        (forwardHandler st launch op).2 = .ack →
        (forwardHandler st launch op).1.previousScreenshot = none) ∧
    (∀ (st : Globals) (launch : Except String (Nat × Nat)) (op : Except String Unit),
        (refreshHandler st launch op).2 = .ack →
        (refreshHandler st launch op).1.previousScreenshot = none) ∧
    (∀ c : Frame, changeDetect none c = (some c, some c)) := by
  refine ⟨fun st body launch goto r h => ?_, fun st x y launch op h => ?_,
          fun st launch op h => ?_, fun st launch op h => ?_,
          fun st launch op h => ?_, fun c => rfl⟩
  · cases body with
    | none =>
      rcases hi : (initBrowserCall st launch).2 with e | bp <;>
        simp [navigateHandler, hi] at h
    | some url =>
      rcases hi : (initBrowserCall st launch).2 with e | bp
      · simp [navigateHandler, hi] at h
      · rcases hg : goto (normalizeUrl url) with e | u
        · simp [navigateHandler, hi, hg] at h
        · simp [navigateHandler, hi, hg]
  · rcases hi : (initBrowserCall st launch).2 with e | bp <;> cases op <;>
      simp_all [clickHandler, hi]
  · rcases hi : (initBrowserCall st launch).2 with e | bp <;> cases op <;>
      simp_all [backHandler, hi]
  · rcases hi : (initBrowserCall st launch).2 with e | bp <;> cases op <;>
      simp_all [forwardHandler, hi]
  · rcases hi : (initBrowserCall st launch).2 with e | bp <;> cases op <;>
      simp_all [refreshHandler, hi]

/-- Witness for C4: each of the five handlers, run successfully from a state
whose cache holds `[9]`, leaves a cleared cache; a capture against a cleared
cache is emitted. -/
theorem claim4_navigation_invalidates_cache_witness :
    (navigateHandler ⟨some 1, some 1, some [9]⟩ (some "a.com") (.ok (1, 1))
        (fun _ => .ok "https://a.com/")).1.previousScreenshot = none ∧
    (clickHandler ⟨some 1, some 1, some [9]⟩ 3 4 (.ok (1, 1))
        (.ok ())).1.previousScreenshot = none ∧
    (backHandler ⟨some 1, some 1, some [9]⟩ (.ok (1, 1))
        (.ok ())).1.previousScreenshot = none ∧
    (forwardHandler ⟨some 1, some 1, some [9]⟩ (.ok (1, 1))
        (.ok ())).1.previousScreenshot = none ∧
    (refreshHandler ⟨some 1, some 1, some [9]⟩ (.ok (1, 1))
        (.ok ())).1.previousScreenshot = none ∧
    changeDetect none [7] = (some [7], some [7]) := by
  refine ⟨claim4_navigation_invalidates_cache.1 _ _ _ _ "https://a.com" (by decide),
          claim4_navigation_invalidates_cache.2.1 _ 3 4 _ _ (by decide),
          claim4_navigation_invalidates_cache.2.2.1 _ _ _ (by decide),
          claim4_navigation_invalidates_cache.2.2.2.1 _ _ _ (by decide),
          claim4_navigation_invalidates_cache.2.2.2.2.1 _ _ _ (by decide),
          claim4_navigation_invalidates_cache.2.2.2.2.2 [7]⟩

/-- C5: a capture or encode failure makes `getOptimizedScreenshot` return
`null` (the tick is skipped), resets the session state — browser, page and
previous-frame cache are cleared before the recovery re-init runs — and a
tick whose capture failed passes nothing to `ws.send`, so no error frame
ever reaches a subscriber; the tick function returns normally rather than
propagating the failure. -/
theorem claim5_capture_failure_skips_tick :
    ∀ (st : Globals) (launch : Except String (Nat × Nat)) (e : String)
      (reinit : Except String (Nat × Nat)) (strm : Bool) (rs : Nat),
      (getOptimizedScreenshot st launch (.error e) reinit).2 = none ∧
      (getOptimizedScreenshot st launch (.error e) reinit).1.previousScreenshot = none ∧
      (getOptimizedScreenshot st launch (.error e) reinit).1 =
        (initBrowserCall ⟨none, none, none⟩ reinit).1 ∧
      (streamTick strm rs st launch (.error e) reinit).sent = none := by
  intro st launch e reinit strm rs
  have hshot : getOptimizedScreenshot st launch (.error e) reinit = captureCatch reinit := by
    unfold getOptimizedScreenshot
    rcases hi : (initBrowserCall st launch).2 with e2 | bp <;> simp [hi]
  refine ⟨by rw [hshot]; rfl, ?_, by rw [hshot]; rfl, ?_⟩
  · rw [hshot]
    show (initBrowserCall ⟨none, none, none⟩ reinit).1.previousScreenshot = none
    rw [initBrowserCall_prev]
  · cases strm <;> simp [streamTick, hshot, captureCatch]

/-- C10: a navigate request whose body has no `url` field always yields an
HTTP 500 error response — the TypeError thrown by `url.match` on an
undefined value is caught by the handler's catch — and never a success. -/
theorem claim10_missing_url_returns_500 :
    ∀ (st : Globals) (launch : Except String (Nat × Nat))
      (goto : String → Except String String),
      ∃ msg, (navigateHandler st none launch goto).2 = .err 500 msg := by
  intro st launch goto
  rcases hi : (initBrowserCall st launch).2 with e | bp
  · exact ⟨e, by simp [navigateHandler, hi]⟩
  · exact ⟨"TypeError: url is undefined", by simp [navigateHandler, hi]⟩

/-- A navigation outcome under which the page ends on a redirected address:
whatever target is requested, the page's address afterwards is
`https://example.com/home`. -/
def redirectingGoto : String → Except String String :=
  fun _ => .ok "https://example.com/home"

/-- A navigation outcome that throws (e.g. a navigation timeout). -/
def timeoutGoto : String → Except String String :=
  fun _ => .error "Navigation timeout"

/-- C3 counterexample: navigating to `example.com` while the page ends up on
`https://example.com/home` makes the handler answer with the requested
scheme-normalized address, not with the page's final address — the two
differ, so the success result is not "the normalized final address of the
page after navigation". -/
theorem claim3_counterexample :
    (navigateHandler ⟨some 1, some 1, none⟩ (some "example.com") (.ok (1, 1))
        redirectingGoto).2 = .ok "https://example.com" ∧
    redirectingGoto (normalizeUrl "example.com") = .ok "https://example.com/home" ∧
    ("https://example.com" : String) ≠ "https://example.com/home" := by
  refine ⟨by decide, rfl, by decide⟩

/-- C3 amended: if the target address has no scheme, `https://` is
prepended, and the success result is exactly this scheme-normalized
requested address (the string handed to `page.goto`), regardless of where
the page actually ended up. -/
theorem claim3_navigate_normalized_request :
    ∀ (st : Globals) (url : String) (launch : Except String (Nat × Nat))
      (goto : String → Except String String) (r : String),
      (navigateHandler st (some url) launch goto).2 = .ok r → r = normalizeUrl url := by
  intro st url launch goto r h
  rcases hi : (initBrowserCall st launch).2 with e | bp
  · simp [navigateHandler, hi] at h
  · rcases hg : goto (normalizeUrl url) with e | u
    · simp [navigateHandler, hi, hg] at h
    · simp [navigateHandler, hi, hg] at h
      exact h.symm

/-- Witness for the amended C3 at a concrete redirecting navigation. -/
theorem claim3_navigate_normalized_request_witness :
    ("https://example.com" : String) = normalizeUrl "example.com" :=
  claim3_navigate_normalized_request ⟨some 1, some 1, none⟩ "example.com" (.ok (1, 1))
    redirectingGoto "https://example.com" (by decide)

/-- C7 counterexample: a navigate whose `page.goto` throws returns the error
message, but the handler's catch leaves the session exactly as it was —
browser `7` and page `8` are still live, the frame cache still holds
`[1, 2, 3]`; the backend state is not reset and the session is not dropped. -/
theorem claim7_counterexample :
    navigateHandler ⟨some 7, some 8, some [1, 2, 3]⟩ (some "x.com") (.ok (9, 9)) timeoutGoto
      = (⟨some 7, some 8, some [1, 2, 3]⟩, .err 500 "Navigation timeout") ∧
    (navigateHandler ⟨some 7, some 8, some [1, 2, 3]⟩ (some "x.com") (.ok (9, 9))
        timeoutGoto).1.browser ≠ none := by
  refine ⟨by decide, by decide⟩

/-- C7 amended: when initialization succeeds but `page.goto` fails, the
caller receives the error message in an HTTP 500 response, and the server
globals are exactly the post-initialization state — the handler itself
resets nothing; session state is cleared only when the failure happens
inside `initBrowser` (whose own catch clears browser and page). -/
theorem claim7_navigate_failure_keeps_session :
    ∀ (st : Globals) (url : String) (launch : Except String (Nat × Nat))
      (goto : String → Except String String) (sid : Nat × Nat) (e : String),
      (initBrowserCall st launch).2 = .ok sid →
      goto (normalizeUrl url) = .error e →
      navigateHandler st (some url) launch goto = ((initBrowserCall st launch).1, .err 500 e) := by
  intro st url launch goto sid e hi hg
  simp [navigateHandler, hi, hg]

/-- Witness for the amended C7 at a concrete failing navigation. -/
theorem claim7_navigate_failure_keeps_session_witness :
    navigateHandler ⟨some 7, some 8, none⟩ (some "x.com") (.ok (9, 9)) timeoutGoto
      = (⟨some 7, some 8, none⟩, .err 500 "Navigation timeout") :=
  claim7_navigate_failure_keeps_session ⟨some 7, some 8, none⟩ "x.com" (.ok (9, 9))
    timeoutGoto (7, 8) "Navigation timeout" rfl rfl

lemma saturatedRun_spec : ∀ n : Nat,
    (saturatedRun n).1 =
      ⟨some 1, some 1, if n = 0 then none else some (growingFrame n)⟩ ∧
    (saturatedRun n).2.length = n := by
  intro n
  induction n with
  | zero => exact ⟨rfl, rfl⟩
  | succ k ih =>
    obtain ⟨h1, h2⟩ := ih
    have hcd : changeDetect (if k = 0 then none else some (growingFrame k))
        (growingFrame (k + 1))
        = (some (growingFrame (k + 1)), some (growingFrame (k + 1))) := by
      cases k with
      | zero => simp [changeDetect]
      | succ j =>
        have hne : ¬ (j + 1 = 0) := by omega
        rw [if_neg hne]
        have hlen : ¬ Int.natAbs (((growingFrame (j + 1 + 1)).length : Int)
            - ((growingFrame (j + 1)).length : Int)) < 1000 := by
          simp only [growingFrame, List.length_replicate]
          have : ((1000 * (j + 1 + 1) : Nat) : Int) - ((1000 * (j + 1) : Nat) : Int)
              = 1000 := by push_cast; ring
          rw [this]
          decide
        simp [changeDetect, hlen]
    have htick : streamTick true 1 (saturatedRun k).1 (.ok (1, 1))
        (.ok (growingFrame (k + 1))) (.ok (1, 1))
        = ⟨⟨some 1, some 1, some (growingFrame (k + 1))⟩,
           some (frameMessage (growingFrame (k + 1)))⟩ := by
      rw [h1]
      simp [streamTick, getOptimizedScreenshot, initBrowserCall, hcd]
    constructor
    · show (saturatedRun (k + 1)).1 = _
      rw [saturatedRun, htick]
      simp
    · show (saturatedRun (k + 1)).2.length = k + 1
      rw [saturatedRun, htick]
      simp [h2]

/-- C6 counterexample: a subscriber whose socket stays open but never drains
is handed one message per emitted frame with no bound at all — there is no
`B` bounding the number of frames passed to its outbound channel, so excess
frames are queued by the transport, not dropped. -/
theorem claim6_counterexample :
    ¬ ∃ B : Nat, ∀ n : Nat, (saturatedRun n).2.length ≤ B := by
  rintro ⟨B, hB⟩
  have h := hB (B + 1)
  rw [(saturatedRun_spec (B + 1)).2] at h
  omega

/-- C6 amended: while the socket reports open (`readyState === 1`), every
emitted frame is passed to the subscriber's outbound channel regardless of
saturation — after `n` always-changing ticks against a never-draining
subscriber, exactly `n` messages have been queued for it (none dropped); the
send is fire-and-forget, so a saturated subscriber does not alter tick
processing, which depends only on the shared globals. -/
theorem claim6_saturated_subscriber_unbounded_queue :
    ∀ n : Nat, (saturatedRun n).2.length = n :=
  fun n => (saturatedRun_spec n).2

/-- C8 counterexample: a delivered frame message has exactly the fields
`type` and `data` — looking up a sequence-number field finds nothing, so
frames do not carry a sequence number at all, let alone a monotonically
increasing one. -/
theorem claim8_counterexample :
    (frameMessage [7]).map Prod.fst = ["type", "data"] ∧
    List.lookup "seq" (frameMessage [7]) = none := by
  exact ⟨rfl, by decide⟩

/-- C8 amended: every frame message delivered to a subscriber is a
two-field object `type`/`data`; no sequence number is carried in any frame,
and per-subscriber ordering is only the order in which the subscriber's
interval handed messages to the transport. -/
theorem claim8_frame_message_schema :
    ∀ data : Frame, (frameMessage data).map Prod.fst = ["type", "data"] :=
  fun _ => rfl

/-- C1: single-flight initialization.  In every reachable interleaving of
concurrent `initBrowser` callers (launch failures included), at most one
caller is inside the `Initializing` launch phase at any time; along runs
whose launches succeed, starting from no live session, at most one backend
launch ever happens, and once all callers have returned, exactly one launch
was performed and every caller got the same session (session `0`). -/
theorem claim1_single_flight_init (n : Nat) (st : InitState n) :
    (Reachable n st →
        ∀ i j, st.pcs i = .launching → st.pcs j = .launching → i = j) ∧
    (ReachableOk n st → st.launches ≤ 1) ∧
    (ReachableOk n st → (∀ i, ∃ r, st.pcs i = .done r) → 0 < n →
        st.launches = 1 ∧ ∀ i, st.pcs i = .done (some 0)) := by
  refine ⟨fun h => (mutexInv_reachable h).2, fun h => ?_, fun h hdone hn => ?_⟩
  · obtain ⟨hm, hnone, hsome, hdn⟩ := okInv_reachableOk h
    cases hcs : st.session with
    | none => simp [hnone hcs]
    | some w => simp [(hsome w hcs).2.1]
  · obtain ⟨hm, hnone, hsome, hdn⟩ := okInv_reachableOk h
    obtain ⟨i0⟩ := Fin.pos_iff_nonempty.mp hn
    obtain ⟨r0, hr0⟩ := hdone i0
    have hs0 : st.session = some 0 := (hdn i0 r0 hr0).2
    refine ⟨(hsome 0 hs0).2.1, fun i => ?_⟩
    obtain ⟨r, hr⟩ := hdone i
    have hri := hdn i r hr
    rw [hri.1] at hr
    exact hr

/-- The state in which the single caller of a 1-caller run holds the
initialization flag and is launching. -/
def midState1 : InitState 1 :=
  { isInitializing := true, session := none, launches := 0,
    pcs := Function.update (fun _ => PC.ready) 0 PC.launching }

/-- The state after that launch completed: session `0` live, one launch
performed, the caller returned session `0`. -/
def finalState1 : InitState 1 :=
  { isInitializing := false, session := some 0, launches := 1,
    pcs := Function.update midState1.pcs 0 (PC.done (some 0)) }

lemma reachableOk_midState1 : ReachableOk 1 midState1 :=
  ReachableOk.step ReachableOk.refl (StepOk.beginInit (initialState 1) 0 rfl rfl rfl)

lemma midState1_pcs_zero : midState1.pcs 0 = PC.launching := by
  simp [midState1]

lemma reachableOk_finalState1 : ReachableOk 1 finalState1 :=
  ReachableOk.step reachableOk_midState1 (StepOk.launchOk midState1 0 midState1_pcs_zero)

lemma finalState1_pcs (i : Fin 1) : finalState1.pcs i = PC.done (some 0) := by
  have hi : i = 0 := Subsingleton.elim i 0
  subst hi
  simp [finalState1]

/-- Witness for C1, exercising all three components on the concrete
1-caller run `initialState 1 → midState1 → finalState1`: mutual exclusion
at the mid-state (where a caller is actually launching), the launch bound
and the all-done conclusion at the final state. -/
theorem claim1_single_flight_init_witness :
    ((0 : Fin 1) = 0) ∧ finalState1.launches ≤ 1 ∧
      (finalState1.launches = 1 ∧ ∀ i, finalState1.pcs i = .done (some 0)) := by
  refine ⟨?_, ?_, ?_⟩
  · exact (claim1_single_flight_init 1 midState1).1
      (reachableOk_reachable reachableOk_midState1) 0 0 midState1_pcs_zero midState1_pcs_zero
  · exact (claim1_single_flight_init 1 finalState1).2.1 reachableOk_finalState1
  · exact (claim1_single_flight_init 1 finalState1).2.2 reachableOk_finalState1
      (fun i => ⟨some 0, finalState1_pcs i⟩) (by decide)

end CheesySurfing
